import Mathlib

/-!
Shallow embedding of the budget-window-predictor pipeline in src/app.py.
Python strings are modelled as lists of characters, JSON values as an
inductive type with rational numbers, and each network collaborator as an
oracle argument recording the outcome of its call.  The Streamlit calls
st.error / st.warning are modelled as emitted UI events, and every network
request that a run issues is recorded in a call trace.
-/

set_option maxRecDepth 100000

/-- The double-quote character. -/
def qchar : Char := Char.ofNat 34

/-- The backslash character. -/
def bslashc : Char := Char.ofNat 92

/-- The opening curly-brace character. -/
def lbrace : Char := Char.ofNat 123

/-- The closing curly-brace character. -/
def rbrace : Char := Char.ofNat 125

/-- Whitespace characters recognised by the JSON grammar and by str.strip. -/
def isWs (c : Char) : Bool :=
  c == ' ' || c == '\t' || c == '\n' || c == '\r'

/-- Drop leading whitespace. -/
def skipWs : List Char → List Char
  | [] => []
  | c :: cs => if isWs c then skipWs cs else c :: cs

/-- Python str.strip: drop whitespace at both ends. -/
def pyStrip (s : List Char) : List Char :=
  ((s.dropWhile isWs).reverse.dropWhile isWs).reverse

/-- Value of a decimal digit string. -/
def digitsToNat (ds : List Char) : Nat :=
  ds.foldl (fun a c => 10 * a + (c.toNat - 48)) 0

/-- Decimal digits of a natural number, with fuel. -/
def natDigits : Nat → Nat → List Char
  | 0, _ => []
  | fuel + 1, n =>
    if n < 10 then [Char.ofNat (48 + n)]
    else natDigits fuel (n / 10) ++ [Char.ofNat (48 + n % 10)]

/-- Decimal rendering of a natural number (Python str on an int). -/
def natToChars (n : Nat) : List Char := natDigits (n + 1) n

/-- Index of the first occurrence of a character, if any. -/
def firstIdx (c : Char) : List Char → Option Nat
  | [] => none
  | x :: xs => if x = c then some 0 else (firstIdx c xs).map (fun i => i + 1)

/-- Python str.find for a single character: first index, or -1. -/
def pyFind (s : List Char) (c : Char) : Int :=
  match firstIdx c s with
  | some i => (i : Int)
  | none => -1

/-- Python str.rfind for a single character: last index, or -1. -/
def pyRFind (s : List Char) (c : Char) : Int :=
  match firstIdx c s.reverse with
  | some i => (s.length : Int) - 1 - (i : Int)
  | none => -1

/-- Clamp one slice bound the way Python slicing does. -/
def pySliceIdx (n : Nat) (i : Int) : Nat :=
  if i < 0 then ((n : Int) + i).toNat else min i.toNat n

/-- Python slicing s[a:b] with possibly negative bounds. -/
def pySlice (s : List Char) (a b : Int) : List Char :=
  (s.take (pySliceIdx s.length b)).drop (pySliceIdx s.length a)

/-- JSON values, as produced by json.loads.  A number is an exact scaled
decimal m / 10 ^ e; object entries keep source order, and lookup takes the
last duplicate, like a Python dict built left to right. -/
inductive Json where
  | null : Json
  | bool (b : Bool) : Json
  | num (m : Int) (e : Nat) : Json
  | str (s : List Char) : Json
  | arr (xs : List Json) : Json
  | obj (kvs : List (List Char × Json)) : Json

/-- Parse error message: no value at this position. -/
def expValMsg : List Char := ("Expecting value").toList

/-- Parse error message: input ended unexpectedly. -/
def eofMsg : List Char := ("Unexpected end of input").toList

/-- Parse error message: fuel exhausted (cannot happen on well-formed input). -/
def fuelMsg : List Char := ("Input too deeply nested").toList

/-- Parse error message: expected a comma or closing delimiter. -/
def delimMsg : List Char := ("Expecting delimiter").toList

/-- Parse error message: expected a colon after an object key. -/
def colonMsg : List Char := ("Expecting colon delimiter").toList

/-- Parse error message: expected a quoted property name. -/
def keyMsg : List Char := ("Expecting property name enclosed in double quotes").toList

/-- Parse error message: trailing non-whitespace after the document. -/
def extraMsg : List Char := ("Extra data").toList

/-- Parse error message: string literal never closed. -/
def untermMsg : List Char := ("Unterminated string").toList

/-- Parse error message: bad escape sequence in a string literal. -/
def badEscMsg : List Char := ("Invalid escape").toList

/-- Value of one hexadecimal digit, if the character is one. -/
def hexVal (c : Char) : Option Nat :=
  let n := c.toNat
  if 48 ≤ n ∧ n ≤ 57 then some (n - 48)
  else if 97 ≤ n ∧ n ≤ 102 then some (n - 87)
  else if 65 ≤ n ∧ n ≤ 70 then some (n - 55)
  else none

/-- Parse the remainder of a JSON string literal (after the opening quote),
returning the decoded characters and the rest of the input. -/
def parseStringRest : Nat → List Char → Except (List Char) (List Char × List Char)
  | 0, _ => .error fuelMsg
  | _ + 1, [] => .error untermMsg
  | fuel + 1, c :: cs =>
    if c = qchar then .ok ([], cs)
    else if c = bslashc then
      match cs with
      | [] => .error badEscMsg
      | e :: es =>
        if e = qchar then
          match parseStringRest fuel es with
          | .ok (r, rest) => .ok (qchar :: r, rest)
          | .error m => .error m
        else if e = bslashc then
          match parseStringRest fuel es with
          | .ok (r, rest) => .ok (bslashc :: r, rest)
          | .error m => .error m
        else if e = '/' then
          match parseStringRest fuel es with
          | .ok (r, rest) => .ok ('/' :: r, rest)
          | .error m => .error m
        else if e = 'n' then
          match parseStringRest fuel es with
          | .ok (r, rest) => .ok ('\n' :: r, rest)
          | .error m => .error m
        else if e = 't' then
          match parseStringRest fuel es with
          | .ok (r, rest) => .ok ('\t' :: r, rest)
          | .error m => .error m
        else if e = 'r' then
          match parseStringRest fuel es with
          | .ok (r, rest) => .ok ('\r' :: r, rest)
          | .error m => .error m
        else if e = 'b' then
          match parseStringRest fuel es with
          | .ok (r, rest) => .ok (Char.ofNat 8 :: r, rest)
          | .error m => .error m
        else if e = 'f' then
          match parseStringRest fuel es with
          | .ok (r, rest) => .ok (Char.ofNat 12 :: r, rest)
          | .error m => .error m
        else if e = 'u' then
          match es with
          | h1 :: h2 :: h3 :: h4 :: rest =>
            match hexVal h1, hexVal h2, hexVal h3, hexVal h4 with
            | some x1, some x2, some x3, some x4 =>
              match parseStringRest fuel rest with
              | .ok (r, rest2) =>
                .ok (Char.ofNat (((x1 * 16 + x2) * 16 + x3) * 16 + x4) :: r, rest2)
              | .error m => .error m
            | _, _, _, _ => .error badEscMsg
          | _ => .error badEscMsg
        else .error badEscMsg
    else
      match parseStringRest fuel cs with
      | .ok (r, rest) => .ok (c :: r, rest)
      | .error m => .error m

/-- Expect a literal keyword tail such as "rue" after 't'. -/
def expectLit (lit : List Char) (s : List Char) (v : Json) :
    Except (List Char) (Json × List Char) :=
  if lit.isPrefixOf s then .ok (v, s.drop lit.length) else .error expValMsg

/-- Parse the fractional part of a number, if present.  The running value
is a scaled decimal: mantissa and power-of-ten denominator exponent. -/
def parseFrac (ip : Nat) (s : List Char) : Except (List Char) ((Nat × Nat) × List Char) :=
  match s with
  | d :: ds =>
    if d = '.' then
      let fs := ds.takeWhile Char.isDigit
      if fs.isEmpty then .error expValMsg
      else .ok ((ip * 10 ^ fs.length + digitsToNat fs, fs.length), ds.dropWhile Char.isDigit)
    else .ok ((ip, 0), s)
  | [] => .ok ((ip, 0), s)

/-- Parse the exponent part of a number, if present. -/
def parseExpPart (me : Nat × Nat) (s : List Char) :
    Except (List Char) ((Nat × Nat) × List Char) :=
  match s with
  | c :: cs =>
    if c = 'e' ∨ c = 'E' then
      let (esign, s1) :=
        match cs with
        | d :: ds => if d = '-' then (true, ds) else if d = '+' then (false, ds) else (false, cs)
        | [] => (false, cs)
      let eds := s1.takeWhile Char.isDigit
      if eds.isEmpty then .error expValMsg
      else
        let k := digitsToNat eds
        .ok (if esign then (me.1, me.2 + k) else (me.1 * 10 ^ k, me.2), s1.dropWhile Char.isDigit)
    else .ok (me, s)
  | [] => .ok (me, s)

/-- Parse a JSON number starting at the head of the input, as an exact
scaled decimal with its sign. -/
def parseNumber (s : List Char) : Except (List Char) ((Int × Nat) × List Char) :=
  let (neg, s1) :=
    match s with
    | c :: cs => if c = '-' then (true, cs) else (false, s)
    | [] => (false, s)
  let ds := s1.takeWhile Char.isDigit
  if ds.isEmpty then .error expValMsg
  else if 1 < ds.length ∧ ds.headD ' ' = '0' then .error expValMsg
  else
    match parseFrac (digitsToNat ds) (s1.dropWhile Char.isDigit) with
    | .error e => .error e
    | .ok (me1, s2) =>
      match parseExpPart me1 s2 with
      | .error e => .error e
      | .ok (me2, s3) =>
        .ok ((if neg then -(me2.1 : Int) else (me2.1 : Int), me2.2), s3)

mutual

/-- Parse one JSON value after skipping leading whitespace. -/
def parseValue : Nat → List Char → Except (List Char) (Json × List Char)
  | 0, _ => .error fuelMsg
  | fuel + 1, s0 =>
    match skipWs s0 with
    | [] => .error expValMsg
    | c :: cs =>
      if c = qchar then
        match parseStringRest (cs.length + 1) cs with
        | .error e => .error e
        | .ok (str, rest) => .ok (Json.str str, rest)
      else if c = lbrace then parseObjStart fuel cs
      else if c = '[' then parseArrStart fuel cs
      else if c = 't' then expectLit (("rue").toList) cs (Json.bool true)
      else if c = 'f' then expectLit (("alse").toList) cs (Json.bool false)
      else if c = 'n' then expectLit (("ull").toList) cs Json.null
      else if c = '-' ∨ c.isDigit then
        match parseNumber (c :: cs) with
        | .error e => .error e
        | .ok (me, rest) => .ok (Json.num me.1 me.2, rest)
      else .error expValMsg

/-- Parse an array body after the opening bracket. -/
def parseArrStart : Nat → List Char → Except (List Char) (Json × List Char)
  | 0, _ => .error fuelMsg
  | fuel + 1, s =>
    match skipWs s with
    | [] => .error eofMsg
    | c :: cs =>
      if c = ']' then .ok (Json.arr [], cs)
      else parseArrItems fuel (c :: cs) []

/-- Parse the items of a non-empty array body. -/
def parseArrItems : Nat → List Char → List Json → Except (List Char) (Json × List Char)
  | 0, _, _ => .error fuelMsg
  | fuel + 1, s, acc =>
    match parseValue fuel s with
    | .error e => .error e
    | .ok (v, rest) =>
      match skipWs rest with
      | [] => .error eofMsg
      | c :: cs =>
        if c = ',' then parseArrItems fuel cs (acc ++ [v])
        else if c = ']' then .ok (Json.arr (acc ++ [v]), cs)
        else .error delimMsg

/-- Parse an object body after the opening brace. -/
def parseObjStart : Nat → List Char → Except (List Char) (Json × List Char)
  | 0, _ => .error fuelMsg
  | fuel + 1, s =>
    match skipWs s with
    | [] => .error eofMsg
    | c :: cs =>
      if c = rbrace then .ok (Json.obj [], cs)
      else parseObjItems fuel (c :: cs) []

/-- Parse the members of a non-empty object body. -/
def parseObjItems : Nat → List Char → List (List Char × Json) →
    Except (List Char) (Json × List Char)
  | 0, _, _ => .error fuelMsg
  | fuel + 1, s, acc =>
    match skipWs s with
    | [] => .error eofMsg
    | c :: cs =>
      if c = qchar then
        match parseStringRest (cs.length + 1) cs with
        | .error e => .error e
        | .ok (key, rest) =>
          match skipWs rest with
          | [] => .error eofMsg
          | c2 :: cs2 =>
            if c2 = ':' then
              match parseValue fuel cs2 with
              | .error e => .error e
              | .ok (v, rest2) =>
                match skipWs rest2 with
                | [] => .error eofMsg
                | c3 :: cs3 =>
                  if c3 = ',' then parseObjItems fuel cs3 (acc ++ [(key, v)])
                  else if c3 = rbrace then .ok (Json.obj (acc ++ [(key, v)]), cs3)
                  else .error delimMsg
            else .error colonMsg
      else .error keyMsg

end

/-- Model of Python json.loads: parse exactly one JSON document, allowing
surrounding whitespace only. -/
def json_loads (s : List Char) : Except (List Char) Json :=
  match parseValue (3 * s.length + 8) s with
  | .error e => .error e
  | .ok (j, rest) => if skipWs rest = [] then .ok j else .error extraMsg

/-- Lookup in a JSON object's entry list; the last duplicate wins, like a
Python dict built left to right. -/
def jLookup (kvs : List (List Char × Json)) (k : List Char) : Option Json :=
  match kvs with
  | [] => none
  | (k2, v) :: rest =>
    match jLookup rest k with
    | some v2 => some v2
    | none => if k2 = k then some v else none

/-- Python subscripting j[k] on a decoded JSON value: a KeyError on a
missing key, a TypeError when the value is not a dict. -/
def jGet (j : Json) (k : List Char) : Except (List Char) Json :=
  match j with
  | Json.obj kvs =>
    match jLookup kvs k with
    | some v => .ok v
    | none => .error (("KeyError: ").toList ++ k)
  | _ => .error (("TypeError: value is not a dict").toList)

/-- Python truthiness of a decoded JSON value. -/
def jsonTruthy : Json → Bool
  | Json.null => false
  | Json.bool b => b
  | Json.num m _ => !(m == 0)
  | Json.str s => !s.isEmpty
  | Json.arr xs => !xs.isEmpty
  | Json.obj kvs => !kvs.isEmpty

/-- Python round() applied to the exact decimal m / 10 ^ e: round half to
even (banker's rounding). -/
def decRound (m : Int) (e : Nat) : Int :=
  let p : Int := (10 : Int) ^ e
  let f : Int := Int.fdiv m p
  let r : Int := m - f * p
  if 2 * r < p then f
  else if p < 2 * r then f + 1
  else if f % 2 = 0 then f else f + 1

/-- Python round() applied to a decoded JSON value: numbers (and bools,
which are ints in Python) round, everything else raises TypeError. -/
def pyRoundJson : Json → Except (List Char) Int
  | Json.num m e => .ok (decRound m e)
  | Json.bool b => .ok (if b then 1 else 0)
  | _ => .error (("TypeError: type cannot be rounded").toList)

/-- A Streamlit UI notification: st.error or st.warning. -/
inductive UIEvent where
  | uiError (msg : List Char) : UIEvent
  | uiWarning (msg : List Char) : UIEvent
deriving DecidableEq

/-- The three fixed market-signal topics. -/
inductive Topic where
  | funding : Topic
  | hiring : Topic
  | tech_stack : Topic
deriving DecidableEq

/-- The three chained stages of the Advanced strategy. -/
inductive Stage where
  | extraction : Stage
  | scoring : Stage
  | synthesis : Stage
deriving DecidableEq

/-- One outbound network call of a run. -/
inductive NetCall where
  | fullenrich : NetCall
  | tavily (t : Topic) : NetCall
  | groqAdvanced (s : Stage) : NetCall
  | groqSimple : NetCall
deriving DecidableEq

/-- The caller-selected scoring strategy. -/
inductive Mode where
  | simple : Mode
  | advanced : Mode
deriving DecidableEq

/-- True exactly for calls to the text-generation provider. -/
def isGroqCall : NetCall → Bool
  | NetCall.groqAdvanced _ => true
  | NetCall.groqSimple => true
  | _ => false

/-- Substring test on character lists. -/
def hasSub : List Char → List Char → Bool
  | needle, [] => needle.isEmpty
  | needle, c :: cs => needle.isPrefixOf (c :: cs) || hasSub needle cs

/-- Python ', '.join. -/
def joinCS : List (List Char) → List Char
  | [] => []
  | [x] => x
  | x :: y :: ys => x ++ (", ").toList ++ joinCS (y :: ys)

/-- Outcome of the HTTP POST issued by get_fullenrich_data: either a
response with a status code and raw body, or a raised transport exception
(timeout, connection error) carrying its message. -/
inductive FetchOutcome where
  | response (status : Nat) (body : List Char) : FetchOutcome
  | exn (msg : List Char) : FetchOutcome

/-- The request get_fullenrich_data issues, with its configured timeout. -/
structure HttpRequest where
  url : List Char
  timeout : Nat
  payloadDomain : List Char

/-- The FullEnrich request for a domain: fixed URL, timeout=30 seconds. -/
def fullenrichRequest (domain : List Char) : HttpRequest :=
  ⟨("https://app.fullenrich.com/api/v1/company/enrich").toList, 30, domain⟩

/-- Result of get_fullenrich_data: the optional CompanyRecord plus the UI
events it emitted. -/
structure FetchResult where
  record : Option Json
  events : List UIEvent

/-- src/app.py get_fullenrich_data: on status 200 the decoded JSON body is
returned verbatim; any other status emits st.warning and returns None; a
raised exception (including a body that fails to decode) emits st.error
and returns None. -/
def get_fullenrich_data (t : FetchOutcome) : FetchResult :=
  match t with
  | FetchOutcome.response status body =>
    if status = 200 then
      match json_loads body with
      | .ok j => ⟨some j, []⟩
      | .error e => ⟨none, [UIEvent.uiError ((("FullEnrich Error: ").toList) ++ e)]⟩
    else
      ⟨none, [UIEvent.uiWarning ((("FullEnrich API returned status ").toList) ++ natToChars status)]⟩
  | FetchOutcome.exn m => ⟨none, [UIEvent.uiError ((("FullEnrich Error: ").toList) ++ m)]⟩

/-- Outcome of one Tavily topic search: the decoded results, or a raised
exception carrying its message. -/
inductive TopicOutcome where
  | ok (j : Json) : TopicOutcome
  | exn (msg : List Char) : TopicOutcome

/-- Oracle fixing what each of the three Tavily topic searches would do. -/
structure TavilyOracle where
  funding : TopicOutcome
  hiring : TopicOutcome
  tech_stack : TopicOutcome

/-- Result of get_market_signals: the optional SignalBundle, the topic
queries actually issued, and the UI events emitted. -/
structure GatherResult where
  signals : Option (List (List Char × Json))
  queries : List Topic
  events : List UIEvent

/-- src/app.py get_market_signals: the three topic searches run one after
another inside a single try block; the first exception aborts the rest,
emits st.error, and makes the whole gather return None. -/
def get_market_signals (o : TavilyOracle) : GatherResult :=
  match o.funding with
  | TopicOutcome.exn m =>
    ⟨none, [Topic.funding], [UIEvent.uiError ((("Tavily Error: ").toList) ++ m)]⟩
  | TopicOutcome.ok fr =>
    match o.hiring with
    | TopicOutcome.exn m =>
      ⟨none, [Topic.funding, Topic.hiring], [UIEvent.uiError ((("Tavily Error: ").toList) ++ m)]⟩
    | TopicOutcome.ok hr =>
      match o.tech_stack with
      | TopicOutcome.exn m =>
        ⟨none, [Topic.funding, Topic.hiring, Topic.tech_stack],
          [UIEvent.uiError ((("Tavily Error: ").toList) ++ m)]⟩
      | TopicOutcome.ok tr =>
        ⟨some [((("funding").toList), fr), ((("hiring").toList), hr), ((("tech_stack").toList), tr)],
          [Topic.funding, Topic.hiring, Topic.tech_stack], []⟩

/-- Oracle fixing the raw text each Advanced-stage chat completion would
return. -/
structure GroqOracle where
  extraction : List Char
  scoring : List Char
  synthesis : List Char

/-- How each Advanced stage consumes a model response in src/app.py:
json.loads(response.strip()) — the whole stripped text must be one JSON
document. -/
def stageParse (resp : List Char) : Except (List Char) Json :=
  json_loads (pyStrip resp)

/-- The final_analysis dict assembled by analyze_with_groq_advanced. -/
structure FinalAnalysis where
  score : Int
  status : Json
  reasoning : Json
  evidence : Json
  recommendation : Json
  email_draft : Json
  detailed_scores : Json
  confidence : Json
  primary_trigger : Json
  approach_angle : Json

/-- The weighted_score key. -/
def wKey : List Char := ("weighted_score").toList

/-- The status key. -/
def stKey : List Char := ("status").toList

/-- The scores key. -/
def scKey : List Char := ("scores").toList

/-- Lines 330-341 of src/app.py: build final_analysis from the Scoring
stage's dict and the Synthesis stage's dict.  Every lookup can raise
(KeyError / TypeError), as can round(); any raise aborts the analysis. -/
def buildFinal (scores insights : Json) : Except (List Char) FinalAnalysis :=
  (jGet scores wKey).bind fun wj =>
  (pyRoundJson wj).bind fun scoreInt =>
  (jGet insights stKey).bind fun status =>
  (jGet insights (("reasoning").toList)).bind fun reasoning =>
  (jGet insights (("evidence").toList)).bind fun evidence =>
  (jGet insights (("recommendation").toList)).bind fun recommendation =>
  (jGet insights (("email_draft").toList)).bind fun email_draft =>
  (jGet scores scKey).bind fun detailed_scores =>
  (jGet scores (("confidence").toList)).bind fun confidence =>
  (jGet insights (("primary_trigger").toList)).bind fun primary_trigger =>
  (jGet insights (("approach_angle").toList)).bind fun approach_angle =>
  .ok ⟨scoreInt, status, reasoning, evidence, recommendation, email_draft,
    detailed_scores, confidence, primary_trigger, approach_angle⟩

/-- Result of analyze_with_groq_advanced: the optional final analysis, the
stage calls actually issued, and the UI events emitted. -/
structure AdvResult where
  analysis : Option FinalAnalysis
  stages : List Stage
  events : List UIEvent

/-- The error banner of the Advanced strategy's except handler. -/
def advErrMsg (e : List Char) : List Char :=
  ("Groq Advanced Analysis Error: ").toList ++ e

/-- src/app.py analyze_with_groq_advanced: three chained chat completions
(extraction, scoring, synthesis), each parsed with
json.loads(text.strip()); the first raise aborts the rest, is caught by
the single except handler, emits st.error with a generic banner, and the
function returns None.  On success the final dict takes score from
round(scores[weighted_score]) and status etc. verbatim from the synthesis
stage. -/
def analyze_with_groq_advanced (o : GroqOracle) : AdvResult :=
  match stageParse o.extraction with
  | .error e => ⟨none, [Stage.extraction], [UIEvent.uiError (advErrMsg e)]⟩
  | .ok _extracted =>
    match stageParse o.scoring with
    | .error e => ⟨none, [Stage.extraction, Stage.scoring], [UIEvent.uiError (advErrMsg e)]⟩
    | .ok scores =>
      match stageParse o.synthesis with
      | .error e =>
        ⟨none, [Stage.extraction, Stage.scoring, Stage.synthesis],
          [UIEvent.uiError (advErrMsg e)]⟩
      | .ok insights =>
        match buildFinal scores insights with
        | .error e =>
          ⟨none, [Stage.extraction, Stage.scoring, Stage.synthesis],
            [UIEvent.uiError (advErrMsg e)]⟩
        | .ok fa =>
          ⟨some fa, [Stage.extraction, Stage.scoring, Stage.synthesis], []⟩

/-- Result of analyze_with_groq_simple: the optional parsed analysis dict
and the UI events emitted. -/
structure SimpleResult where
  analysis : Option Json
  events : List UIEvent

/-- The error banner of the Simple strategy's except handler. -/
def simpleErrMsg (e : List Char) : List Char :=
  ("Groq Simple Analysis Error: ").toList ++ e

/-- Lines 393-395 of src/app.py: slice the response text from the first
opening brace to the last closing brace (Python find / rfind / slicing
semantics, including the -1 results when a brace is absent). -/
def extractEnvelope (s : List Char) : List Char :=
  pySlice s (pyFind s lbrace) (pyRFind s rbrace + 1)

/-- src/app.py analyze_with_groq_simple: one chat completion whose text is
sliced from the first opening brace to the last closing brace and parsed
with json.loads; a raise is caught, emits st.error, and yields None. -/
def analyze_with_groq_simple (resp : List Char) : SimpleResult :=
  match json_loads (extractEnvelope resp) with
  | .ok j => ⟨some j, []⟩
  | .error e => ⟨none, [UIEvent.uiError (simpleErrMsg e)]⟩

/-- Lines 416-422 of src/app.py: names of the credentials whose values are
falsy (empty), in the fixed order Groq, Tavily, FullEnrich. -/
def missing_keys (groq_key tavily_key fullenrich_key : List Char) : List (List Char) :=
  (if groq_key = [] then [("Groq").toList] else []) ++
  (if tavily_key = [] then [("Tavily").toList] else []) ++
  (if fullenrich_key = [] then [("FullEnrich").toList] else [])

/-- The missing-keys error banner of line 425. -/
def missingKeysMsg (missing : List (List Char)) : List Char :=
  ("Missing API Keys: ").toList ++ joinCS missing ++
    (". Please add them to .env file or sidebar.").toList

/-- The empty-domain warning of line 427. -/
def emptyDomainMsg : List Char := ("Please enter a domain to analyze.").toList

/-- The both-upstreams-failed error of line 549. -/
def failGatherMsg : List Char :=
  ("Failed to gather data. Please check your API keys and try again.").toList

/-- Python truthiness of an optional decoded JSON value (None is falsy). -/
def optTruthy : Option Json → Bool
  | none => false
  | some j => jsonTruthy j

/-- Python truthiness of an optional SignalBundle (None is falsy, a dict
is truthy when non-empty). -/
def sigTruthy : Option (List (List Char × Json)) → Bool
  | none => false
  | some l => !l.isEmpty

/-- What one full press of the Analyze button produced. -/
inductive AnalysisOut where
  | advanced (fa : FinalAnalysis) : AnalysisOut
  | simple (j : Json) : AnalysisOut

/-- Oracle fixing the outcome of every network call a run could issue. -/
structure World where
  enrich : FetchOutcome
  tavily : TavilyOracle
  groqAdv : GroqOracle
  groqSimple : List Char

/-- Result of one full run: the optional analysis, every network call
issued, and the UI events emitted. -/
structure RunResult where
  analysis : Option AnalysisOut
  calls : List NetCall
  events : List UIEvent

/-- Lines 413-549 of src/app.py (the Analyze button handler): validate the
three credentials, then the domain, then call the two upstream clients in
order, then — only if company_data or market_signals is truthy — the
selected strategy; with both falsy, report the data error instead. -/
def runAnalyze (groq_key tavily_key fullenrich_key domain : List Char)
    (mode : Mode) (w : World) : RunResult :=
  if missing_keys groq_key tavily_key fullenrich_key = [] then
    if domain = [] then ⟨none, [], [UIEvent.uiWarning emptyDomainMsg]⟩
    else
      let fe := get_fullenrich_data w.enrich
      let gm := get_market_signals w.tavily
      let calls0 := NetCall.fullenrich :: gm.queries.map NetCall.tavily
      if optTruthy fe.record || sigTruthy gm.signals then
        match mode with
        | Mode.advanced =>
          let r := analyze_with_groq_advanced w.groqAdv
          ⟨r.analysis.map AnalysisOut.advanced,
            calls0 ++ r.stages.map NetCall.groqAdvanced,
            fe.events ++ gm.events ++ r.events⟩
        | Mode.simple =>
          let r := analyze_with_groq_simple w.groqSimple
          ⟨r.analysis.map AnalysisOut.simple,
            calls0 ++ [NetCall.groqSimple],
            fe.events ++ gm.events ++ r.events⟩
      else
        ⟨none, calls0, fe.events ++ gm.events ++ [UIEvent.uiError failGatherMsg]⟩
  else
    ⟨none, [],
      [UIEvent.uiError (missingKeysMsg (missing_keys groq_key tavily_key fullenrich_key))]⟩

/-- The extraction-stage response text used in several concrete runs:
an empty JSON object. -/
def emptyObjText : List Char := ("\x7b\x7d").toList

/-- A scoring-stage response whose dimension scores are the spec's worked
example but whose self-reported weighted_score is 10. -/
def scoringText10 : List Char :=
  ("\x7b\"scores\":\x7b\"timing\":80,\"growth\":70,\"tech_modernization\":90,\"company_size\":100,\"budget_availability\":70\x7d,\"weighted_score\":10,\"confidence\":\"high\"\x7d").toList

/-- A scoring-stage response with the same dimension scores and a
self-reported weighted_score of 90. -/
def scoringText90 : List Char :=
  ("\x7b\"scores\":\x7b\"timing\":80,\"growth\":70,\"tech_modernization\":90,\"company_size\":100,\"budget_availability\":70\x7d,\"weighted_score\":90,\"confidence\":\"high\"\x7d").toList

/-- A well-formed synthesis-stage response whose status is RED. -/
def synOkText : List Char :=
  ("\x7b\"status\":\"RED\",\"reasoning\":\"r\",\"primary_trigger\":\"funding\",\"approach_angle\":\"a\",\"evidence\":[\"x\",\"y\",\"z\"],\"recommendation\":\"n\",\"email_draft\":\"e\"\x7d").toList

/-- Concrete Advanced oracle: worked-example dimension scores, reported
weighted_score 10, synthesis status RED. -/
def advOracle10 : GroqOracle := ⟨emptyObjText, scoringText10, synOkText⟩

/-- Concrete Advanced oracle: same dimension scores, reported
weighted_score 90, synthesis status RED. -/
def advOracle90 : GroqOracle := ⟨emptyObjText, scoringText90, synOkText⟩

/-- The five worked-example dimension scores as a decoded JSON object. -/
def exampleScoresJson : Json :=
  Json.obj [(("timing").toList, Json.num 80 0), (("growth").toList, Json.num 70 0),
    (("tech_modernization").toList, Json.num 90 0),
    (("company_size").toList, Json.num 100 0),
    (("budget_availability").toList, Json.num 70 0)]

/-- The final analysis produced from advOracle10. -/
def advFa10 : FinalAnalysis :=
  ⟨10, Json.str (("RED").toList), Json.str (("r").toList),
    Json.arr [Json.str (("x").toList), Json.str (("y").toList), Json.str (("z").toList)],
    Json.str (("n").toList), Json.str (("e").toList), exampleScoresJson,
    Json.str (("high").toList), Json.str (("funding").toList), Json.str (("a").toList)⟩

/-- The final analysis produced from advOracle90. -/
def advFa90 : FinalAnalysis :=
  ⟨90, Json.str (("RED").toList), Json.str (("r").toList),
    Json.arr [Json.str (("x").toList), Json.str (("y").toList), Json.str (("z").toList)],
    Json.str (("n").toList), Json.str (("e").toList), exampleScoresJson,
    Json.str (("high").toList), Json.str (("funding").toList), Json.str (("a").toList)⟩

/-- The world of the C8 concrete run: truthy company data, all three topic
searches succeed, and the extraction response is not JSON. -/
def w8World : World :=
  ⟨FetchOutcome.response 200 (("\x7b\"a\":1\x7d").toList),
   ⟨TopicOutcome.ok Json.null, TopicOutcome.ok Json.null, TopicOutcome.ok Json.null⟩,
   ⟨("oops").toList, scoringText10, synOkText⟩, ("x").toList⟩

/-- The C10 probe text: a valid JSON object surrounded by prose. -/
def c10Text : List Char :=
  ("Sure, here it is: \x7b\"score\":55,\"status\":\"YELLOW\"\x7d Hope this helps!").toList

/-- The C6 concrete model response: the spec's example with surrounding
prose and a JSON object carrying score 55 and status YELLOW. -/
def c6Resp : List Char :=
  ("Sure, here it is:\n\x7b\"score\":55,\"status\":\"YELLOW\",\"reasoning\":\"ok\"\x7d\nHope this helps!").toList

/-- The decoded value of the braced segment of c6Resp. -/
def c6Json : Json :=
  Json.obj [(("score").toList, Json.num 55 0),
    (("status").toList, Json.str (("YELLOW").toList)),
    (("reasoning").toList, Json.str (("ok").toList))]

example : json_loads (("\x7b\x7d").toList) = .ok (Json.obj []) := rfl

example : json_loads (("  \x7b\"a\": [1, 2.5, true, null, \"x\"]\x7d ").toList) =
    .ok (Json.obj [(("a").toList,
      Json.arr [Json.num 1 0, Json.num 25 1, Json.bool true, Json.null,
        Json.str (("x").toList)])]) := rfl

example : json_loads (("nope").toList) = .error expValMsg := rfl

example : json_loads ([]) = .error expValMsg := rfl

example : decRound 815 1 = 82 := by decide
example : decRound 825 1 = 82 := by decide
example : decRound 700 1 = 70 := by decide
example : decRound (-25) 1 = -2 := by decide

example :
    (runAnalyze (("k").toList) (("k").toList) (("k").toList) (("d").toList) Mode.simple
      ⟨FetchOutcome.response 200 (("\x7b\"a\":1\x7d").toList),
       ⟨TopicOutcome.ok Json.null, TopicOutcome.ok Json.null, TopicOutcome.ok Json.null⟩,
       ⟨("x").toList, ("x").toList, ("x").toList⟩,
       ("\x7b\"score\":55\x7d").toList⟩).analysis =
    some (AnalysisOut.simple (Json.obj [(("score").toList, Json.num 55 0)])) := rfl

example : (analyze_with_groq_advanced advOracle10).analysis = some advFa10 := rfl

example : (analyze_with_groq_advanced advOracle90).analysis = some advFa90 := rfl

/-- All-fields case split for get_market_signals. -/
theorem gather_cases (o : TavilyOracle) :
    Topic.funding ∈ (get_market_signals o).queries := by
  rcases o with ⟨fo, ho, tso⟩
  cases fo <;> cases ho <;> cases tso <;> simp [get_market_signals]

/-- When the three credentials are all non-empty, nothing is missing. -/
theorem missing_keys_nil (g t f : List Char) (hg : ¬ g = []) (ht : ¬ t = [])
    (hf : ¬ f = []) : missing_keys g t f = [] := by
  simp [missing_keys, hg, ht, hf]

/-- C1 counterexample: with the funding query failing and the other two set
to succeed, the gather returns no SignalBundle at all and never issues the
hiring and tech-stack queries, contrary to the claimed partial-failure
policy. -/
theorem gather_single_topic_failure_cex :
    (get_market_signals
      ⟨TopicOutcome.exn (("boom").toList), TopicOutcome.ok Json.null,
        TopicOutcome.ok Json.null⟩).signals = none ∧
    (get_market_signals
      ⟨TopicOutcome.exn (("boom").toList), TopicOutcome.ok Json.null,
        TopicOutcome.ok Json.null⟩).queries = [Topic.funding] :=
  ⟨rfl, rfl⟩

/-- C1 (amended): get_market_signals returns a SignalBundle exactly when
all three topic queries succeed (and then all three topics are present);
the first topic failure aborts the gather, skips the remaining queries,
reports the Tavily error, and returns None. -/
theorem gather_aborts_on_any_topic_failure (o : TavilyOracle) :
    ((get_market_signals o).signals.isSome = true ↔
      (∃ fr, o.funding = TopicOutcome.ok fr) ∧ (∃ hr, o.hiring = TopicOutcome.ok hr) ∧
        (∃ tr, o.tech_stack = TopicOutcome.ok tr)) ∧
    (∀ fr hr tr, o.funding = TopicOutcome.ok fr → o.hiring = TopicOutcome.ok hr →
      o.tech_stack = TopicOutcome.ok tr →
      (get_market_signals o).signals =
        some [((("funding").toList), fr), ((("hiring").toList), hr),
          ((("tech_stack").toList), tr)]) ∧
    (∀ m, o.funding = TopicOutcome.exn m →
      get_market_signals o =
        ⟨none, [Topic.funding], [UIEvent.uiError ((("Tavily Error: ").toList) ++ m)]⟩) := by
  rcases o with ⟨fo, ho, tso⟩
  refine ⟨?_, ?_, ?_⟩
  · cases fo <;> cases ho <;> cases tso <;> simp [get_market_signals]
  · intro fr hr tr h1 h2 h3
    cases h1; cases h2; cases h3
    simp [get_market_signals]
  · intro m h1
    cases h1
    simp [get_market_signals]

/-- Witness for the amended C1 theorem at a concrete oracle. -/
theorem gather_aborts_on_any_topic_failure_witness :
    get_market_signals
      ⟨TopicOutcome.exn (("down").toList), TopicOutcome.ok (Json.obj []),
        TopicOutcome.ok (Json.obj [])⟩ =
      ⟨none, [Topic.funding],
        [UIEvent.uiError ((("Tavily Error: ").toList) ++ (("down").toList))]⟩ :=
  (gather_aborts_on_any_topic_failure
    ⟨TopicOutcome.exn (("down").toList), TopicOutcome.ok (Json.obj []),
      TopicOutcome.ok (Json.obj [])⟩).2.2 (("down").toList) rfl

/-- Each credential name appears in missing_keys exactly when that
credential is empty, and no name is listed twice. -/
theorem missing_keys_exact (g t f : List Char) :
    ((("Groq").toList ∈ missing_keys g t f ↔ g = []) ∧
     (("Tavily").toList ∈ missing_keys g t f ↔ t = []) ∧
     (("FullEnrich").toList ∈ missing_keys g t f ↔ f = [])) ∧
    (missing_keys g t f).Nodup := by
  by_cases hg : g = [] <;> by_cases ht : t = [] <;> by_cases hf : f = [] <;>
    simp [missing_keys, hg, ht, hf]

/-- C4: with any credential missing, the run reports the configuration
error naming exactly the missing credentials and issues no network call;
with all credentials present but an empty domain, the run reports the
empty-domain problem, again before any network call. -/
theorem config_errors_block_all_network_calls
    (g t f d : List Char) (mode : Mode) (w : World) :
    (¬ missing_keys g t f = [] →
      runAnalyze g t f d mode w =
        ⟨none, [], [UIEvent.uiError (missingKeysMsg (missing_keys g t f))]⟩ ∧
      ((("Groq").toList ∈ missing_keys g t f ↔ g = []) ∧
       (("Tavily").toList ∈ missing_keys g t f ↔ t = []) ∧
       (("FullEnrich").toList ∈ missing_keys g t f ↔ f = [])) ∧
      (missing_keys g t f).Nodup) ∧
    (missing_keys g t f = [] → d = [] →
      runAnalyze g t f d mode w = ⟨none, [], [UIEvent.uiWarning emptyDomainMsg]⟩) := by
  refine ⟨fun hm => ⟨?_, (missing_keys_exact g t f).1, (missing_keys_exact g t f).2⟩,
    fun hm hd => ?_⟩
  · simp [runAnalyze, hm]
  · simp [runAnalyze, hm, hd]

/-- Witness for C4 at concrete inputs: Groq key missing, and separately an
empty domain with all keys present. -/
theorem config_errors_block_all_network_calls_witness :
    (runAnalyze ([]) (("k").toList) (("k").toList) (("d").toList) Mode.simple
        ⟨FetchOutcome.exn (("e").toList),
         ⟨TopicOutcome.ok Json.null, TopicOutcome.ok Json.null, TopicOutcome.ok Json.null⟩,
         ⟨("x").toList, ("x").toList, ("x").toList⟩, ("x").toList⟩ =
      ⟨none, [],
        [UIEvent.uiError (missingKeysMsg (missing_keys ([]) (("k").toList) (("k").toList)))]⟩) ∧
    (runAnalyze (("k").toList) (("k").toList) (("k").toList) ([]) Mode.simple
        ⟨FetchOutcome.exn (("e").toList),
         ⟨TopicOutcome.ok Json.null, TopicOutcome.ok Json.null, TopicOutcome.ok Json.null⟩,
         ⟨("x").toList, ("x").toList, ("x").toList⟩, ("x").toList⟩ =
      ⟨none, [], [UIEvent.uiWarning emptyDomainMsg]⟩) :=
  ⟨((config_errors_block_all_network_calls ([]) (("k").toList) (("k").toList) (("d").toList)
      Mode.simple _).1 (by decide)).1,
   (config_errors_block_all_network_calls (("k").toList) (("k").toList) (("k").toList) ([])
      Mode.simple _).2 (by decide) rfl⟩

/-- Tavily calls are not text-generation calls. -/
theorem tavily_map_no_groq (ts : List Topic) :
    (ts.map NetCall.tavily).any isGroqCall = false := by
  induction ts with
  | nil => rfl
  | cons h t ih => simp [isGroqCall, ih]

/-- The Advanced strategy always issues at least its extraction call. -/
theorem adv_stages_ne_nil (o : GroqOracle) :
    (analyze_with_groq_advanced o).stages ≠ [] := by
  unfold analyze_with_groq_advanced
  cases stageParse o.extraction with
  | error e => simp
  | ok j1 =>
    cases stageParse o.scoring with
    | error e => simp
    | ok j2 =>
      cases stageParse o.synthesis with
      | error e => simp
      | ok j3 =>
        cases hb : buildFinal j2 j3 <;> simp [hb]

/-- A non-empty list of Advanced stage calls contains a text-generation
call. -/
theorem stages_map_any_groq (ss : List Stage) (h : ss ≠ []) :
    (ss.map NetCall.groqAdvanced).any isGroqCall = true := by
  cases ss with
  | nil => exact absurd rfl h
  | cons a l => simp [isGroqCall]

/-- C5 counterexample: the enrichment fetch returns a CompanyRecord (the
empty JSON object decoded from a 200 response) and market signals are
absent, so the claim requires the Scoring Engine to be invoked; but the
run makes no text-generation call and yields no analysis. -/
theorem scoring_engine_skipped_for_present_empty_record_cex :
    (get_fullenrich_data (FetchOutcome.response 200 (("\x7b\x7d").toList))).record =
      some (Json.obj []) ∧
    (get_market_signals
      ⟨TopicOutcome.exn (("down").toList), TopicOutcome.ok Json.null,
        TopicOutcome.ok Json.null⟩).signals = none ∧
    (runAnalyze (("k").toList) (("k").toList) (("k").toList) (("stripe.com").toList)
        Mode.simple
        ⟨FetchOutcome.response 200 (("\x7b\x7d").toList),
         ⟨TopicOutcome.exn (("down").toList), TopicOutcome.ok Json.null,
           TopicOutcome.ok Json.null⟩,
         ⟨("x").toList, ("x").toList, ("x").toList⟩, ("x").toList⟩).calls.any isGroqCall
      = false ∧
    (runAnalyze (("k").toList) (("k").toList) (("k").toList) (("stripe.com").toList)
        Mode.simple
        ⟨FetchOutcome.response 200 (("\x7b\x7d").toList),
         ⟨TopicOutcome.exn (("down").toList), TopicOutcome.ok Json.null,
           TopicOutcome.ok Json.null⟩,
         ⟨("x").toList, ("x").toList, ("x").toList⟩, ("x").toList⟩).analysis = none :=
  ⟨rfl, rfl, rfl, rfl⟩

/-- C5 (amended): after credential and domain validation, the Scoring
Engine is invoked exactly when company_data or market_signals is truthy in
Python's sense — a present-but-empty CompanyRecord counts as absent; when
both are falsy the run yields no analysis and reports the data error; and
a returned SignalBundle is always truthy, so for signals truthiness is
presence. -/
theorem scoring_gate_uses_python_truthiness
    (g t f d : List Char) (mode : Mode) (w : World)
    (hg : ¬ g = []) (ht : ¬ t = []) (hf : ¬ f = []) (hd : ¬ d = []) :
    ((runAnalyze g t f d mode w).calls.any isGroqCall =
      (optTruthy (get_fullenrich_data w.enrich).record ||
        sigTruthy (get_market_signals w.tavily).signals)) ∧
    ((optTruthy (get_fullenrich_data w.enrich).record ||
        sigTruthy (get_market_signals w.tavily).signals) = false →
      (runAnalyze g t f d mode w).analysis = none ∧
      UIEvent.uiError failGatherMsg ∈ (runAnalyze g t f d mode w).events) ∧
    (sigTruthy (get_market_signals w.tavily).signals =
      (get_market_signals w.tavily).signals.isSome) := by
  have hmk := missing_keys_nil g t f hg ht hf
  refine ⟨?_, ?_, ?_⟩
  · simp only [runAnalyze, hmk, if_pos, hd, if_neg]
    cases hgate : (optTruthy (get_fullenrich_data w.enrich).record ||
        sigTruthy (get_market_signals w.tavily).signals) with
    | false =>
      simp [hgate, List.any_append, tavily_map_no_groq, isGroqCall]
    | true =>
      cases mode with
      | advanced =>
        simp [hgate, List.any_append, tavily_map_no_groq, isGroqCall,
          stages_map_any_groq _ (adv_stages_ne_nil w.groqAdv)]
      | simple =>
        simp [hgate, List.any_append, tavily_map_no_groq, isGroqCall]
  · intro hgate
    simp [runAnalyze, hmk, hd, hgate]
  · rcases w.tavily with ⟨fo, ho, tso⟩
    cases fo <;> cases ho <;> cases tso <;> simp [get_market_signals, sigTruthy]

/-- Witness for the amended C5 theorem at concrete inputs where both
upstream results are falsy. -/
theorem scoring_gate_uses_python_truthiness_witness :
    (runAnalyze (("k").toList) (("k").toList) (("k").toList) (("stripe.com").toList)
        Mode.simple
        ⟨FetchOutcome.response 200 (("\x7b\x7d").toList),
         ⟨TopicOutcome.exn (("down").toList), TopicOutcome.ok Json.null,
           TopicOutcome.ok Json.null⟩,
         ⟨("x").toList, ("x").toList, ("x").toList⟩, ("x").toList⟩).analysis = none ∧
    UIEvent.uiError failGatherMsg ∈
      (runAnalyze (("k").toList) (("k").toList) (("k").toList) (("stripe.com").toList)
        Mode.simple
        ⟨FetchOutcome.response 200 (("\x7b\x7d").toList),
         ⟨TopicOutcome.exn (("down").toList), TopicOutcome.ok Json.null,
           TopicOutcome.ok Json.null⟩,
         ⟨("x").toList, ("x").toList, ("x").toList⟩, ("x").toList⟩).events :=
  (scoring_gate_uses_python_truthiness (("k").toList) (("k").toList) (("k").toList)
    (("stripe.com").toList) Mode.simple
    ⟨FetchOutcome.response 200 (("\x7b\x7d").toList),
     ⟨TopicOutcome.exn (("down").toList), TopicOutcome.ok Json.null,
       TopicOutcome.ok Json.null⟩,
     ⟨("x").toList, ("x").toList, ("x").toList⟩, ("x").toList⟩
    (by decide) (by decide) (by decide) (by decide)).2.1 (by rfl)

/-- C9: the enrichment fetch returns the decoded JSON body verbatim exactly
when the status is 200 (and the body decodes); any other status yields no
record plus a warning; a transport exception (e.g. hitting the 30-second
timeout configured on the request) yields no record plus an error — in all
failure cases the function returns normally and the run goes on to issue
the market-signal queries. -/
theorem enrichment_fetch_contract
    (body m dm g t f d : List Char) (status : Nat) (j : Json) (oc : FetchOutcome)
    (mode : Mode) (w : World) :
    (json_loads body = .ok j →
      get_fullenrich_data (FetchOutcome.response 200 body) = ⟨some j, []⟩) ∧
    (¬ status = 200 →
      get_fullenrich_data (FetchOutcome.response status body) =
        ⟨none, [UIEvent.uiWarning ((("FullEnrich API returned status ").toList) ++
          natToChars status)]⟩) ∧
    (get_fullenrich_data (FetchOutcome.exn m) =
      ⟨none, [UIEvent.uiError ((("FullEnrich Error: ").toList) ++ m)]⟩) ∧
    ((get_fullenrich_data oc).record.isSome = true →
      ∃ b2 j2, oc = FetchOutcome.response 200 b2 ∧ json_loads b2 = .ok j2 ∧
        (get_fullenrich_data oc).record = some j2) ∧
    ((fullenrichRequest dm).timeout = 30) ∧
    (¬ g = [] → ¬ t = [] → ¬ f = [] → ¬ d = [] →
      NetCall.tavily Topic.funding ∈ (runAnalyze g t f d mode w).calls) := by
  refine ⟨?_, ?_, rfl, ?_, rfl, ?_⟩
  · intro h
    simp [get_fullenrich_data, h]
  · intro h
    simp [get_fullenrich_data, h]
  · intro h
    cases oc with
    | exn m2 => simp [get_fullenrich_data] at h
    | response st b =>
      by_cases h200 : st = 200
      · subst h200
        cases hj : json_loads b with
        | error e => simp [get_fullenrich_data, hj] at h
        | ok j2 => exact ⟨b, j2, rfl, hj, by simp [get_fullenrich_data, hj]⟩
      · simp [get_fullenrich_data, h200] at h
  · intro hg ht hf hd
    have hfund := gather_cases w.tavily
    cases hgate : (optTruthy (get_fullenrich_data w.enrich).record ||
        sigTruthy (get_market_signals w.tavily).signals) <;> cases mode <;>
      simp [runAnalyze, missing_keys_nil g t f hg ht hf, hd, hgate, List.mem_append,
        List.mem_map] <;>
      exact hfund

/-- Witness for C9 at concrete inputs: a 200 response with a decodable
body, a 404 response, the fixed timeout, and a run whose enrichment call
raised yet still issued the funding query. -/
theorem enrichment_fetch_contract_witness :
    (get_fullenrich_data (FetchOutcome.response 200 (("\x7b\"revenue\":5\x7d").toList)) =
      ⟨some (Json.obj [(("revenue").toList, Json.num 5 0)]), []⟩) ∧
    (get_fullenrich_data (FetchOutcome.response 404 (("\x7b\"revenue\":5\x7d").toList)) =
      ⟨none, [UIEvent.uiWarning ((("FullEnrich API returned status ").toList) ++
        natToChars 404)]⟩) ∧
    (fullenrichRequest (("acme.io").toList)).timeout = 30 ∧
    NetCall.tavily Topic.funding ∈
      (runAnalyze (("k").toList) (("k").toList) (("k").toList) (("d").toList) Mode.simple
        ⟨FetchOutcome.exn (("timed out").toList),
         ⟨TopicOutcome.ok Json.null, TopicOutcome.ok Json.null, TopicOutcome.ok Json.null⟩,
         ⟨("x").toList, ("x").toList, ("x").toList⟩, ("x").toList⟩).calls := by
  have T := enrichment_fetch_contract (("\x7b\"revenue\":5\x7d").toList)
    (("timed out").toList) (("acme.io").toList) (("k").toList) (("k").toList)
    (("k").toList) (("d").toList) 404 (Json.obj [(("revenue").toList, Json.num 5 0)])
    (FetchOutcome.exn (("timed out").toList)) Mode.simple
    ⟨FetchOutcome.exn (("timed out").toList),
     ⟨TopicOutcome.ok Json.null, TopicOutcome.ok Json.null, TopicOutcome.ok Json.null⟩,
     ⟨("x").toList, ("x").toList, ("x").toList⟩, ("x").toList⟩
  exact ⟨T.1 rfl, T.2.1 (by decide), T.2.2.2.2.1,
    T.2.2.2.2.2 (by decide) (by decide) (by decide) (by decide)⟩

/-- Inversion of Except.bind on a success. -/
theorem except_bind_ok {α β : Type} {x : Except (List Char) α}
    {f : α → Except (List Char) β} {b : β} (h : x.bind f = .ok b) :
    ∃ a, x = .ok a ∧ f a = .ok b := by
  cases x with
  | error e => simp [Except.bind] at h
  | ok a => exact ⟨a, rfl, h⟩

/-- Inversion of a successful Advanced analysis: all three stages parsed
and the final assembly succeeded. -/
theorem adv_ok_inv (o : GroqOracle) (fa : FinalAnalysis)
    (h : (analyze_with_groq_advanced o).analysis = some fa) :
    ∃ ed sc ins, stageParse o.extraction = .ok ed ∧ stageParse o.scoring = .ok sc ∧
      stageParse o.synthesis = .ok ins ∧ buildFinal sc ins = .ok fa := by
  cases h1 : stageParse o.extraction with
  | error e => simp [analyze_with_groq_advanced, h1] at h
  | ok ed =>
    cases h2 : stageParse o.scoring with
    | error e => simp [analyze_with_groq_advanced, h1, h2] at h
    | ok sc =>
      cases h3 : stageParse o.synthesis with
      | error e => simp [analyze_with_groq_advanced, h1, h2, h3] at h
      | ok ins =>
        cases h4 : buildFinal sc ins with
        | error e => simp [analyze_with_groq_advanced, h1, h2, h3, h4] at h
        | ok fa2 =>
          simp only [analyze_with_groq_advanced, h1, h2, h3, h4, Option.some.injEq] at h
          subst h
          exact ⟨ed, sc, ins, rfl, rfl, rfl, h4⟩

/-- Inversion of the final assembly: where score, status and the detailed
scores of the final dict come from. -/
theorem buildFinal_ok_inv (sc ins : Json) (fa : FinalAnalysis)
    (h : buildFinal sc ins = .ok fa) :
    ∃ wj, jGet sc wKey = .ok wj ∧ pyRoundJson wj = .ok fa.score ∧
      jGet ins stKey = .ok fa.status ∧ jGet sc scKey = .ok fa.detailed_scores := by
  unfold buildFinal at h
  obtain ⟨wj, hwj, h⟩ := except_bind_ok h
  obtain ⟨si, hsi, h⟩ := except_bind_ok h
  obtain ⟨st2, hst, h⟩ := except_bind_ok h
  obtain ⟨re, hre, h⟩ := except_bind_ok h
  obtain ⟨ev, hev, h⟩ := except_bind_ok h
  obtain ⟨rc, hrc, h⟩ := except_bind_ok h
  obtain ⟨em, hem, h⟩ := except_bind_ok h
  obtain ⟨ds, hds, h⟩ := except_bind_ok h
  obtain ⟨cf, hcf, h⟩ := except_bind_ok h
  obtain ⟨pt, hpt, h⟩ := except_bind_ok h
  obtain ⟨aa, haa, h⟩ := except_bind_ok h
  cases h
  exact ⟨wj, hwj, hsi, hst, hds⟩

/-- C2 counterexample: a successful Advanced run whose detailed scores are
exactly the claim's worked example, yet whose final score is 10 (the
model's self-reported weighted_score), not the 82 the claim requires. -/
theorem advanced_score_not_recomputed_cex :
    ((analyze_with_groq_advanced advOracle10).analysis.map FinalAnalysis.detailed_scores) =
      some exampleScoresJson ∧
    ((analyze_with_groq_advanced advOracle10).analysis.map FinalAnalysis.score) = some 10 ∧
    ¬ (10 : Int) = 82 :=
  ⟨rfl, rfl, by decide⟩

/-- C2 (amended): the Advanced final score is Python round() applied to
the weighted_score value reported by the Scoring stage's response — the
code never recomputes the weighted combination from the five dimension
scores; when the reported value is the true weighted combination of the
worked example (81.5, i.e. 8150/100), the rounded score is 82. -/
theorem advanced_score_is_round_of_reported
    (o : GroqOracle) (fa : FinalAnalysis)
    (h : (analyze_with_groq_advanced o).analysis = some fa) :
    (∃ sc wj, stageParse o.scoring = .ok sc ∧ jGet sc wKey = .ok wj ∧
      pyRoundJson wj = .ok fa.score) ∧
    decRound (80 * 30 + 70 * 25 + 90 * 20 + 100 * 15 + 70 * 10) 2 = 82 := by
  obtain ⟨ed, sc, ins, h1, h2, h3, h4⟩ := adv_ok_inv o fa h
  obtain ⟨wj, hwj, hr, _, _⟩ := buildFinal_ok_inv sc ins fa h4
  exact ⟨⟨sc, wj, h2, hwj, hr⟩, by decide⟩

/-- Witness for the amended C2 theorem at the concrete oracle. -/
theorem advanced_score_is_round_of_reported_witness :
    (∃ sc wj, stageParse advOracle10.scoring = .ok sc ∧ jGet sc wKey = .ok wj ∧
      pyRoundJson wj = .ok advFa10.score) ∧
    decRound (80 * 30 + 70 * 25 + 90 * 20 + 100 * 15 + 70 * 10) 2 = 82 :=
  advanced_score_is_round_of_reported advOracle10 advFa10 rfl

/-- C3 counterexample: a successful Advanced run with final score 90 and
final status RED — the claimed GREEN-iff-at-least-70 invariant fails
because the code copies the model's status without enforcement. -/
theorem advanced_status_threshold_not_enforced_cex :
    ((analyze_with_groq_advanced advOracle90).analysis.map FinalAnalysis.score) = some 90 ∧
    ((analyze_with_groq_advanced advOracle90).analysis.map FinalAnalysis.status) =
      some (Json.str (("RED").toList)) ∧
    (70 : Int) ≤ 90 ∧
    ¬ Json.str (("RED").toList) = Json.str (("GREEN").toList) := by
  refine ⟨rfl, rfl, by decide, ?_⟩
  intro h
  injection h with h2
  revert h2
  decide

/-- C3 (amended): the Advanced final status is taken verbatim from the
Synthesis stage's response; the GREEN/YELLOW/RED thresholds are only
instructed in the prompt, never enforced against the numeric score. -/
theorem advanced_status_verbatim_from_synthesis
    (o : GroqOracle) (fa : FinalAnalysis)
    (h : (analyze_with_groq_advanced o).analysis = some fa) :
    ∃ ins, stageParse o.synthesis = .ok ins ∧ jGet ins stKey = .ok fa.status := by
  obtain ⟨ed, sc, ins, h1, h2, h3, h4⟩ := adv_ok_inv o fa h
  obtain ⟨wj, _, _, hst, _⟩ := buildFinal_ok_inv sc ins fa h4
  exact ⟨ins, h3, hst⟩

/-- Witness for the amended C3 theorem at the concrete oracle. -/
theorem advanced_status_verbatim_from_synthesis_witness :
    ∃ ins, stageParse advOracle90.synthesis = .ok ins ∧
      jGet ins stKey = .ok advFa90.status :=
  advanced_status_verbatim_from_synthesis advOracle90 advFa90 rfl

/-- Tavily calls survive no groq-call filter. -/
theorem tavily_map_filter_groq (ts : List Topic) :
    (ts.map NetCall.tavily).filter isGroqCall = [] := by
  induction ts with
  | nil => rfl
  | cons h t ih => simp [isGroqCall, ih]

/-- C8 (amended): when the Extraction stage's response is unparsable, the
run yields no analysis, issues no Scoring, Synthesis or Simple-strategy
text-generation call (the only text-generation call is the extraction
one), and reports a fatal error whose message is the generic advanced
banner followed by the JSON decode error — the message does not name the
failing stage. -/
theorem advanced_extraction_failure_aborts
    (g t f d e : List Char) (w : World)
    (hg : ¬ g = []) (ht : ¬ t = []) (hf : ¬ f = []) (hd : ¬ d = [])
    (he : stageParse w.groqAdv.extraction = .error e)
    (hgate : (optTruthy (get_fullenrich_data w.enrich).record ||
      sigTruthy (get_market_signals w.tavily).signals) = true) :
    (runAnalyze g t f d Mode.advanced w).analysis = none ∧
    (runAnalyze g t f d Mode.advanced w).calls.filter isGroqCall =
      [NetCall.groqAdvanced Stage.extraction] ∧
    UIEvent.uiError (advErrMsg e) ∈ (runAnalyze g t f d Mode.advanced w).events := by
  have h1 : analyze_with_groq_advanced w.groqAdv =
      ⟨none, [Stage.extraction], [UIEvent.uiError (advErrMsg e)]⟩ := by
    unfold analyze_with_groq_advanced
    rw [he]
  refine ⟨?_, ?_, ?_⟩ <;>
    simp [runAnalyze, missing_keys_nil g t f hg ht hf, hd, hgate, h1,
      List.filter_append, List.filter_cons, tavily_map_filter_groq, isGroqCall]

/-- C8 counterexample: at a concrete run whose extraction response is
unparsable, the reported message is the generic banner plus the decode
error; it contains no mention of the Extraction stage, contrary to the
claim that the error names the failing stage. -/
theorem advanced_extraction_error_names_no_stage_cex :
    (runAnalyze (("k").toList) (("k").toList) (("k").toList) (("d").toList)
      Mode.advanced w8World).analysis = none ∧
    (runAnalyze (("k").toList) (("k").toList) (("k").toList) (("d").toList)
      Mode.advanced w8World).calls =
      [NetCall.fullenrich, NetCall.tavily Topic.funding, NetCall.tavily Topic.hiring,
        NetCall.tavily Topic.tech_stack, NetCall.groqAdvanced Stage.extraction] ∧
    (runAnalyze (("k").toList) (("k").toList) (("k").toList) (("d").toList)
      Mode.advanced w8World).events = [UIEvent.uiError (advErrMsg expValMsg)] ∧
    hasSub (("Extraction").toList) (advErrMsg expValMsg) = false ∧
    hasSub (("extraction").toList) (advErrMsg expValMsg) = false ∧
    hasSub (("stage").toList) (advErrMsg expValMsg) = false :=
  ⟨rfl, rfl, rfl, rfl, rfl, rfl⟩

/-- Witness for the amended C8 theorem at the concrete world. -/
theorem advanced_extraction_failure_aborts_witness :
    (runAnalyze (("k").toList) (("k").toList) (("k").toList) (("d").toList)
      Mode.advanced w8World).analysis = none ∧
    (runAnalyze (("k").toList) (("k").toList) (("k").toList) (("d").toList)
      Mode.advanced w8World).calls.filter isGroqCall =
      [NetCall.groqAdvanced Stage.extraction] ∧
    UIEvent.uiError (advErrMsg expValMsg) ∈
      (runAnalyze (("k").toList) (("k").toList) (("k").toList) (("d").toList)
        Mode.advanced w8World).events :=
  advanced_extraction_failure_aborts (("k").toList) (("k").toList) (("k").toList)
    (("d").toList) expValMsg w8World (by decide) (by decide) (by decide) (by decide)
    rfl rfl

/-- C10: the Simple strategy's envelope extraction parses the probe text
(score 55, status YELLOW), but an Advanced stage applies
json.loads(text.strip()) to the whole response, so the same text makes the
Advanced analysis fail at the extraction stage with no further stage
calls. -/
theorem advanced_whole_text_json_vs_simple_envelope :
    (analyze_with_groq_simple c10Text).analysis =
      some (Json.obj [(("score").toList, Json.num 55 0),
        (("status").toList, Json.str (("YELLOW").toList))]) ∧
    stageParse c10Text = .error expValMsg ∧
    (analyze_with_groq_advanced ⟨c10Text, scoringText10, synOkText⟩).analysis = none ∧
    (analyze_with_groq_advanced ⟨c10Text, scoringText10, synOkText⟩).stages =
      [Stage.extraction] ∧
    (analyze_with_groq_advanced ⟨c10Text, scoringText10, synOkText⟩).events =
      [UIEvent.uiError (advErrMsg expValMsg)] :=
  ⟨rfl, rfl, rfl, rfl, rfl⟩

/-- A character absent from a list has no first index. -/
theorem firstIdx_eq_none_of_not_mem (c : Char) (l : List Char) (h : ¬ c ∈ l) :
    firstIdx c l = none := by
  induction l with
  | nil => rfl
  | cons x xs ih =>
    rw [List.mem_cons, not_or] at h
    have hxc : ¬ x = c := fun hh => h.1 hh.symm
    simp [firstIdx, hxc, ih h.2]

/-- Searching past a prefix that lacks the character shifts the index. -/
theorem firstIdx_append_not_mem (c : Char) (l1 l2 : List Char) (h : ¬ c ∈ l1) :
    firstIdx c (l1 ++ l2) = (firstIdx c l2).map (fun i => i + l1.length) := by
  induction l1 with
  | nil =>
    simp only [List.nil_append, List.length_nil]
    cases hj : firstIdx c l2 <;> simp
  | cons x xs ih =>
    rw [List.mem_cons, not_or] at h
    have hxc : ¬ x = c := fun hh => h.1 hh.symm
    simp only [List.cons_append, firstIdx, if_neg hxc, List.append_eq]
    rw [ih h.2]
    cases hj : firstIdx c l2 <;> simp [hj, List.length_cons]
    omega

/-- A found first index is inside the list. -/
theorem firstIdx_some_lt (c : Char) (l : List Char) (i : Nat)
    (h : firstIdx c l = some i) : i < l.length := by
  induction l generalizing i with
  | nil => simp [firstIdx] at h
  | cons x xs ih =>
    by_cases hxc : x = c
    · simp [firstIdx, hxc] at h
      simp only [List.length_cons]
      omega
    · simp only [firstIdx, if_neg hxc] at h
      obtain ⟨j, hj, hji⟩ := Option.map_eq_some'.mp h
      have := ih j hj
      simp only [List.length_cons]
      omega

/-- First index zero means the list starts with the character. -/
theorem firstIdx_zero (c : Char) (l : List Char) (h : firstIdx c l = some 0) :
    ∃ tl, l = c :: tl := by
  cases l with
  | nil => simp [firstIdx] at h
  | cons x xs =>
    by_cases hxc : x = c
    · exact ⟨xs, by rw [hxc]⟩
    · exfalso
      simp only [firstIdx, if_neg hxc] at h
      obtain ⟨j, hj, hji⟩ := Option.map_eq_some'.mp h
      omega

/-- Python slicing at in-range non-negative bounds is take-then-drop. -/
theorem pySlice_nat (s : List Char) (a b : Nat) (ha : a ≤ s.length) (hb : b ≤ s.length) :
    pySlice s (a : Int) (b : Int) = (s.take b).drop a := by
  have h1 : ¬ ((a : Int) < 0) := by omega
  have h2 : ¬ ((b : Int) < 0) := by omega
  simp [pySlice, pySliceIdx, h1, h2, Int.toNat_natCast, min_eq_left ha, min_eq_left hb]

/-- A Python slice that stops at 0 is empty. -/
theorem pySlice_to_zero (s : List Char) (a : Int) : pySlice s a 0 = [] := by
  have h2 : ¬ ((0 : Int) < 0) := by omega
  simp [pySlice, pySliceIdx, h2]

/-- The first-opening-brace-to-last-closing-brace slice recovers the
braced segment exactly when the preceding text has no opening brace and
the following text no closing brace. -/
theorem envelope_exact (pre mid post : List Char)
    (hpre : ¬ lbrace ∈ pre) (hpost : ¬ rbrace ∈ post) :
    extractEnvelope (pre ++ (lbrace :: (mid ++ [rbrace])) ++ post) =
      lbrace :: (mid ++ [rbrace]) := by
  set X : List Char := lbrace :: (mid ++ [rbrace]) with hX
  have hfind : pyFind ((pre ++ X) ++ post) lbrace = (pre.length : Int) := by
    unfold pyFind
    rw [List.append_assoc, firstIdx_append_not_mem _ _ _ hpre]
    simp [hX, firstIdx]
  have hrev : ((pre ++ X) ++ post).reverse =
      post.reverse ++ (rbrace :: (mid.reverse ++ (lbrace :: pre.reverse))) := by
    simp [hX]
  have hlen : ((pre ++ X) ++ post).length = pre.length + (mid.length + 2) + post.length := by
    simp [hX]
    omega
  have hrfind : pyRFind ((pre ++ X) ++ post) rbrace =
      ((pre.length + mid.length + 1 : Nat) : Int) := by
    unfold pyRFind
    rw [hrev, firstIdx_append_not_mem _ _ _ (by simpa using hpost)]
    simp only [firstIdx, if_pos rfl, Option.map_some', Nat.zero_add]
    rw [hlen]
    push_cast
    simp [List.length_reverse]
    ring
  unfold extractEnvelope
  rw [hfind, hrfind]
  have hb : ((pre.length + mid.length + 1 : Nat) : Int) + 1 =
      ((pre.length + (mid.length + 2) : Nat) : Int) := by push_cast; ring
  rw [hb, pySlice_nat _ _ _ (by omega) (by rw [hlen]; omega)]
  have hxl : pre.length + (mid.length + 2) = (pre ++ X).length := by
    simp [hX]
  rw [hxl, List.take_left]
  exact List.drop_left pre X

/-- With no opening brace, or no closing brace, the sliced envelope is
empty or the single closing brace — never parsable JSON. -/
theorem extract_no_braces (resp : List Char)
    (h : ¬ lbrace ∈ resp ∨ ¬ rbrace ∈ resp) :
    extractEnvelope resp = [] ∨ extractEnvelope resp = [rbrace] := by
  have hneg : (-1 : Int) + 1 = 0 := by norm_num
  rcases h with h | h
  · have hfind : pyFind resp lbrace = -1 := by
      unfold pyFind
      rw [firstIdx_eq_none_of_not_mem _ _ h]
    cases hj : firstIdx rbrace resp.reverse with
    | none =>
      left
      have hrf : pyRFind resp rbrace = -1 := by
        unfold pyRFind
        rw [hj]
      unfold extractEnvelope
      rw [hfind, hrf, hneg]
      exact pySlice_to_zero resp (-1)
    | some i =>
      have hi : i < resp.length := by
        have := firstIdx_some_lt _ _ _ hj
        simpa using this
      have hrf : pyRFind resp rbrace = (resp.length : Int) - 1 - (i : Int) := by
        unfold pyRFind
        rw [hj]
      unfold extractEnvelope
      rw [hfind, hrf]
      have hb : ((resp.length : Int) - 1 - (i : Int)) + 1 =
          ((resp.length - i : Nat) : Int) := by omega
      rw [hb]
      have hst : pySliceIdx resp.length (-1) = resp.length - 1 := by
        simp only [pySliceIdx, if_pos (by omega : (-1 : Int) < 0)]
        omega
      have hen : pySliceIdx resp.length ((resp.length - i : Nat) : Int) =
          resp.length - i := by
        have h2 : ¬ (((resp.length - i : Nat) : Int) < 0) := by omega
        simp only [pySliceIdx, if_neg h2, Int.toNat_natCast]
        omega
      unfold pySlice
      rw [hst, hen]
      rcases Nat.eq_zero_or_pos i with hi0 | hipos
      · subst hi0
        right
        obtain ⟨tl, htl⟩ := firstIdx_zero _ _ hj
        have hresp : resp = tl.reverse ++ [rbrace] := by
          have := congrArg List.reverse htl
          simpa using this
        rw [hresp]
        have hlen2 : (tl.reverse ++ [rbrace]).length = tl.length + 1 := by simp
        rw [hlen2]
        have htake : (tl.reverse ++ [rbrace]).take ((tl.length + 1) - 0) =
            tl.reverse ++ [rbrace] :=
          List.take_of_length_le (by rw [hlen2]; omega)
        rw [htake]
        have hdrop : (tl.reverse ++ [rbrace]).drop tl.reverse.length = [rbrace] :=
          List.drop_left tl.reverse [rbrace]
        rw [List.length_reverse] at hdrop
        have h3 : tl.length + 1 - 1 = tl.length := by omega
        rw [h3]
        exact hdrop
      · left
        apply List.drop_eq_nil_of_le
        rw [List.length_take]
        omega
  · left
    have hrf : pyRFind resp rbrace = -1 := by
      unfold pyRFind
      rw [firstIdx_eq_none_of_not_mem _ _ (by simpa using h)]
    unfold extractEnvelope
    rw [hrf, hneg]
    exact pySlice_to_zero resp _

/-- C6: the Simple strategy parses exactly the substring from the first
opening brace to the last closing brace, discarding surrounding content;
on the spec's example response the parsed result has score 55 and status
YELLOW. -/
theorem simple_parses_envelope (pre mid post : List Char)
    (hpre : ¬ lbrace ∈ pre) (hpost : ¬ rbrace ∈ post) :
    extractEnvelope (pre ++ (lbrace :: (mid ++ [rbrace])) ++ post) =
      lbrace :: (mid ++ [rbrace]) ∧
    (analyze_with_groq_simple (pre ++ (lbrace :: (mid ++ [rbrace])) ++ post)).analysis =
      (json_loads (lbrace :: (mid ++ [rbrace]))).toOption ∧
    (analyze_with_groq_simple c6Resp).analysis = some c6Json ∧
    jGet c6Json (("score").toList) = .ok (Json.num 55 0) ∧
    jGet c6Json (("status").toList) = .ok (Json.str (("YELLOW").toList)) := by
  have hx := envelope_exact pre mid post hpre hpost
  refine ⟨hx, ?_, rfl, rfl, rfl⟩
  unfold analyze_with_groq_simple
  rw [hx]
  cases hjj : json_loads (lbrace :: (mid ++ [rbrace])) <;> simp [Except.toOption]

/-- Witness for C6 at the spec's concrete example. -/
theorem simple_parses_envelope_witness :
    extractEnvelope ((("Sure, here it is:\n").toList) ++
        (lbrace :: ((("\"score\":55,\"status\":\"YELLOW\",\"reasoning\":\"ok\"").toList)
          ++ [rbrace])) ++ (("\nHope this helps!").toList)) =
      lbrace :: ((("\"score\":55,\"status\":\"YELLOW\",\"reasoning\":\"ok\"").toList)
        ++ [rbrace]) ∧
    (analyze_with_groq_simple ((("Sure, here it is:\n").toList) ++
        (lbrace :: ((("\"score\":55,\"status\":\"YELLOW\",\"reasoning\":\"ok\"").toList)
          ++ [rbrace])) ++ (("\nHope this helps!").toList))).analysis =
      (json_loads (lbrace ::
        ((("\"score\":55,\"status\":\"YELLOW\",\"reasoning\":\"ok\"").toList)
          ++ [rbrace]))).toOption ∧
    (analyze_with_groq_simple c6Resp).analysis = some c6Json ∧
    jGet c6Json (("score").toList) = .ok (Json.num 55 0) ∧
    jGet c6Json (("status").toList) = .ok (Json.str (("YELLOW").toList)) :=
  simple_parses_envelope (("Sure, here it is:\n").toList)
    (("\"score\":55,\"status\":\"YELLOW\",\"reasoning\":\"ok\"").toList)
    (("\nHope this helps!").toList) (by decide) (by decide)

/-- C7: whenever the response lacks an opening or closing brace, or the
sliced envelope is not valid JSON, the Simple strategy reports the error
and yields no result — never a default one. -/
theorem simple_malformed_yields_error (resp : List Char)
    (h : ¬ lbrace ∈ resp ∨ ¬ rbrace ∈ resp ∨
      (∃ e0, json_loads (extractEnvelope resp) = .error e0)) :
    ∃ e, analyze_with_groq_simple resp =
      ⟨none, [UIEvent.uiError (simpleErrMsg e)]⟩ := by
  have herr : ∃ e0, json_loads (extractEnvelope resp) = .error e0 := by
    rcases h with h | h | h
    · rcases extract_no_braces resp (Or.inl h) with h2 | h2 <;> rw [h2] <;>
        exact ⟨expValMsg, rfl⟩
    · rcases extract_no_braces resp (Or.inr h) with h2 | h2 <;> rw [h2] <;>
        exact ⟨expValMsg, rfl⟩
    · exact h
  obtain ⟨e0, he⟩ := herr
  refine ⟨e0, ?_⟩
  unfold analyze_with_groq_simple
  rw [he]

/-- Witness for C7 at a concrete brace-free response. -/
theorem simple_malformed_yields_error_witness :
    ∃ e, analyze_with_groq_simple (("no braces at all").toList) =
      ⟨none, [UIEvent.uiError (simpleErrMsg e)]⟩ :=
  simple_malformed_yields_error (("no braces at all").toList) (Or.inl (by decide))
